import Mathlib

/-!
Shallow embedding of `projects/stockmarketdirectory/api/app.py` (a Flask
API serving stock-market data).  Prices are modelled as exact rationals;
Python's `round(x, 2)` is modelled as round-half-to-even at two decimal
places, `int(x)` as truncation toward zero.  The external `yfinance`
provider is modelled as an explicit fetch outcome (`Except Unit …`):
`.error` stands for a raised provider exception, `.ok` for a returned
metadata map (`info`) together with a price history.  Wall-clock
timestamp fields (`datetime.now().isoformat()`) are omitted: they carry
no data the handlers compute from.
-/

namespace StockApi

/-- Round a rational to the nearest integer, ties to the even integer:
the rounding rule of Python's builtin `round`. -/
def roundHalfEven (q : ℚ) : ℤ :=
  let f : ℤ := ⌊q⌋
  let r : ℚ := q - (f : ℚ)
  if r < 1/2 then f
  else if 1/2 < r then f + 1
  else if f % 2 = 0 then f else f + 1

/-- Python's `round(x, 2)`: round to two decimal places, ties to even. -/
def round2 (q : ℚ) : ℚ := (roundHalfEven (q * 100) : ℚ) / 100

/-- Python's `int(x)` on a real value: truncation toward zero
(`tdiv` truncates toward zero, and the denominator is positive). -/
def truncInt (q : ℚ) : ℤ := q.num.tdiv (q.den : ℤ)

/-- `q` is representable with two decimal places. -/
def isTwoDecimal (q : ℚ) : Prop := ∃ n : ℤ, q * 100 = (n : ℚ)

/-- The `ticker.info` metadata map: each key the handlers read, present
or absent (Python `dict.get` with a default). -/
structure Metadata where
  previousClose : Option ℚ := none
  longName : Option String := none
  volume : Option ℤ := none
  marketCap : Option ℤ := none
  trailingPE : Option ℚ := none
  fiftyTwoWeekHigh : Option ℚ := none
  fiftyTwoWeekLow : Option ℚ := none
  dividendYield : Option ℚ := none
  currency : Option String := none
  exchange : Option String := none
  marketState : Option String := none
deriving DecidableEq

/-- A handler's outcome as serialized by Flask: a 200 body, or an
`{error: …}` body with an explicit HTTP status code. -/
inductive ApiResult (α : Type) where
  | ok (body : α)
  | fail (status : Nat) (error : String)
deriving DecidableEq

/-- The JSON body built by `get_stock_data` (the `timestamp` field,
wall-clock time, is omitted from the model). -/
structure StockSnapshot where
  symbol : String
  name : String
  current_price : ℚ
  previous_close : ℚ
  change : ℚ
  change_percent : ℚ
  volume : ℤ
  market_cap : ℤ
  pe_ratio : ℚ
  high_52w : ℚ
  low_52w : ℚ
  dividend_yield : ℚ
  currency : String
  exchange : String
  market_state : String
deriving DecidableEq

/-- `(change / previous_close) * 100 if previous_close else 0`:
the guarded percent-change computation shared verbatim by
`get_stock_data` and `get_market_indices`. -/
def computeChangePercent (change previous_close : ℚ) : ℚ :=
  if previous_close ≠ 0 then change / previous_close * 100 else 0

/-- `GET /api/stock/<symbol>`: `fetch` is the joint outcome of
`ticker.info` and `ticker.history(period='1d')` — `.error` if either
raised (caught by the handler's `except`, mapped to 500), otherwise the
metadata and the list of `Close` prices.  `hist.empty` maps to 404;
`hist['Close'].iloc[-1]` is the last element. -/
def get_stock_data (symbol : String) (fetch : Except Unit (Metadata × List ℚ)) :
    ApiResult StockSnapshot :=
  match fetch with
  | .error _ => .fail 500 ("Failed to fetch data for " ++ symbol)
  | .ok (info, hist) =>
    match hist.getLast? with
    | none => .fail 404 ("No data found for symbol " ++ symbol)
    | some lastClose =>
      let current_price := lastClose
      let previous_close := info.previousClose.getD lastClose
      let change := current_price - previous_close
      let change_percent := computeChangePercent change previous_close
      .ok {
        symbol := symbol.toUpper
        name := info.longName.getD symbol.toUpper
        current_price := round2 current_price
        previous_close := round2 previous_close
        change := round2 change
        change_percent := round2 change_percent
        volume := info.volume.getD 0
        market_cap := info.marketCap.getD 0
        pe_ratio := info.trailingPE.getD 0
        high_52w := info.fiftyTwoWeekHigh.getD 0
        low_52w := info.fiftyTwoWeekLow.getD 0
        dividend_yield := info.dividendYield.getD 0
        currency := info.currency.getD "USD"
        exchange := info.exchange.getD "UNKNOWN"
        market_state := info.marketState.getD "CLOSED" }

/-- The hardcoded `indices` dict of `get_market_indices`, in insertion
order. -/
def indices : List (String × String) :=
  [("^GSPC", "S&P 500"), ("^DJI", "Dow Jones"), ("^IXIC", "NASDAQ")]

/-- One entry of the `results` dict of `get_market_indices` (again
minus the wall-clock `timestamp` field). -/
structure IndexEntry where
  name : String
  symbol : String
  current_price : ℚ
  change : ℚ
  change_percent : ℚ
deriving DecidableEq

/-- The body of the per-symbol loop of `get_market_indices`: `none`
when the symbol contributes no entry — the inner `except` caught a
provider exception, or `hist.empty` held (the `if not hist.empty`
guard has no else branch). -/
def indexEntry (symbol name : String) (fetch : Except Unit (Metadata × List ℚ)) :
    Option IndexEntry :=
  match fetch with
  | .error _ => none
  | .ok (info, hist) =>
    match hist.getLast? with
    | none => none
    | some lastClose =>
      let current_price := lastClose
      let previous_close := info.previousClose.getD lastClose
      let change := current_price - previous_close
      let change_percent := computeChangePercent change previous_close
      some { name := name, symbol := symbol,
             current_price := round2 current_price,
             change := round2 change,
             change_percent := round2 change_percent }

/-- `GET /api/market/indices`: `fetches` gives each configured symbol's
provider outcome; the loop collects the surviving entries in insertion
order (a Python dict keyed by symbol). -/
def get_market_indices (fetches : String → Except Unit (Metadata × List ℚ)) :
    ApiResult (List (String × IndexEntry)) :=
  .ok (indices.filterMap fun p => (indexEntry p.1 p.2 (fetches p.1)).map fun e => (p.1, e))

/-- One row of the raw OHLCV history frame: the index date rendered by
`strftime` as a string, the index's epoch time in seconds, and the
Open/High/Low/Close/Volume columns. -/
structure Row where
  date : String
  ts : ℚ
  openPrice : ℚ
  highPrice : ℚ
  lowPrice : ℚ
  closePrice : ℚ
  vol : ℚ
deriving DecidableEq

/-- One element of `get_stock_chart`'s `chart_data` list. -/
structure Bar where
  date : String
  timestamp : ℤ
  openPrice : ℚ
  highPrice : ℚ
  lowPrice : ℚ
  closePrice : ℚ
  volume : ℤ
deriving DecidableEq

/-- The per-row body of the chart loop: `int(index.timestamp() * 1000)`,
OHLC rounded to 2 decimals, `int(row['Volume'])`. -/
def rowToBar (r : Row) : Bar :=
  { date := r.date
    timestamp := truncInt (r.ts * 1000)
    openPrice := round2 r.openPrice
    highPrice := round2 r.highPrice
    lowPrice := round2 r.lowPrice
    closePrice := round2 r.closePrice
    volume := truncInt r.vol }

/-- The `valid_periods` list of `get_stock_chart`. -/
def valid_periods : List String :=
  ["1d", "5d", "1mo", "3mo", "6mo", "1y", "2y", "5y", "10y", "ytd", "max"]

/-- The period actually used: the `period` query parameter defaulted to
`"1y"` by `request.args.get`, then replaced by `"1y"` when not in
`valid_periods`. -/
def effectivePeriod (periodArg : Option String) : String :=
  let period := periodArg.getD "1y"
  if period ∈ valid_periods then period else "1y"

/-- The response body of `get_stock_chart` (minus the wall-clock
`timestamp` field). -/
structure ChartResponse where
  symbol : String
  period : String
  interval : String
  data : List Bar
  count : Nat
deriving DecidableEq

/-- `GET /api/stock/<symbol>/chart?period=&interval=`: `periodArg` and
`intervalArg` are the raw query parameters (absent = `none`); `fetch`
maps the period and interval actually passed to `ticker.history` to its
outcome (`.error` = raised, caught and mapped to 500). -/
def get_stock_chart (symbol : String) (periodArg intervalArg : Option String)
    (fetch : String → String → Except Unit (List Row)) : ApiResult ChartResponse :=
  let period := effectivePeriod periodArg
  let interval := intervalArg.getD "1d"
  match fetch period interval with
  | .error _ => .fail 500 ("Failed to fetch chart data for " ++ symbol)
  | .ok hist =>
    if hist.isEmpty then .fail 404 ("No chart data found for symbol " ++ symbol)
    else
      let chart_data := hist.map rowToBar
      .ok { symbol := symbol.toUpper
            period := period
            interval := interval
            data := chart_data
            count := chart_data.length }

/-- One element of `search_stocks`' suggestion list. -/
structure SymbolSuggestion where
  symbol : String
  name : String
  exchange : String
deriving DecidableEq

/-- The response body of `search_stocks`. -/
structure SearchResponse where
  suggestions : List SymbolSuggestion
deriving DecidableEq

/-- `GET /api/search/<query>`: queries longer than 5 characters return
no suggestions before any provider access; otherwise `fetch` is the
outcome of `ticker.info` (`.error` = raised, caught, empty suggestions
with status 200).  `info and info.get('longName')` is truthy exactly
when `longName` is present and a non-empty string. -/
def search_stocks (query : String) (fetch : Except Unit Metadata) :
    ApiResult SearchResponse :=
  if query.length > 5 then .ok { suggestions := [] }
  else
    match fetch with
    | .error _ => .ok { suggestions := [] }
    | .ok info =>
      match info.longName with
      | none => .ok { suggestions := [] }
      | some n =>
        if n.isEmpty then .ok { suggestions := [] }
        else
          .ok { suggestions := [{ symbol := query.toUpper, name := n,
                                  exchange := info.exchange.getD "UNKNOWN" }] }

/-- A provider outcome that contributes nothing: a raised exception, or
an empty history frame. -/
def fetchFails (r : Except Unit (Metadata × List ℚ)) : Bool :=
  match r with
  | .error _ => true
  | .ok (_, hist) => hist.isEmpty

/-! ### Helper lemmas -/

theorem roundHalfEven_eval (q : ℚ) (n : ℤ) (h1 : (n : ℚ) ≤ q) (h2 : q < n + 1) :
    roundHalfEven q =
      if q - n < 1/2 then n else if 1/2 < q - n then n + 1
      else if n % 2 = 0 then n else n + 1 := by
  have hf : ⌊q⌋ = n := Int.floor_eq_iff.mpr ⟨h1, h2⟩
  simp only [roundHalfEven, hf]

theorem round2_zero : round2 0 = 0 := by
  rw [round2, show ((0 : ℚ) * 100) = ((0 : ℤ) : ℚ) by norm_num,
    roundHalfEven_eval _ 0 (by norm_num) (by norm_num)]
  norm_num

theorem isTwoDecimal_round2 (q : ℚ) : isTwoDecimal (round2 q) :=
  ⟨roundHalfEven (q * 100), by rw [round2, div_mul_cancel₀] ; norm_num⟩

theorem indexEntry_isSome_eq (s n : String) (r : Except Unit (Metadata × List ℚ)) :
    (indexEntry s n r).isSome = !fetchFails r := by
  match r with
  | .error e => rfl
  | .ok (info, hist) =>
    match hist with
    | [] => rfl
    | a :: t =>
      have hne : a :: t ≠ [] := by simp
      obtain ⟨c, hc⟩ := Option.isSome_iff_exists.mp (List.getLast?_isSome.mpr hne)
      simp [indexEntry, fetchFails, hc]

theorem length_filterMap_three {α β : Type} (f : α → Option β) (a b c : α) :
    (List.filterMap f [a, b, c]).length =
      ((if (f a).isSome then 1 else 0) + (if (f b).isSome then 1 else 0))
        + (if (f c).isSome then 1 else 0) := by
  cases h1 : f a <;> cases h2 : f b <;> cases h3 : f c <;>
    simp [List.filterMap_cons, h1, h2, h3]

/-! ### C1 -/

/-- C1: every per-symbol failure (provider exception or empty history)
in `get_market_indices` is caught and only omits that symbol; with the
3 configured index symbols of which exactly 1 fetch fails, the handler
returns a 200 result with exactly 2 entries and never raises. -/
theorem index_aggregation_omits_failures
    (fetches : String → Except Unit (Metadata × List ℚ))
    (h : ((indices.map fun p => fetches p.1).countP fetchFails) = 1) :
    ∃ l, get_market_indices fetches = .ok l ∧ l.length = 2 := by
  refine ⟨_, rfl, ?_⟩
  rw [show (indices.filterMap fun p =>
        (indexEntry p.1 p.2 (fetches p.1)).map fun e => (p.1, e)) =
      List.filterMap (fun p => (indexEntry p.1 p.2 (fetches p.1)).map fun e => (p.1, e))
        [("^GSPC", "S&P 500"), ("^DJI", "Dow Jones"), ("^IXIC", "NASDAQ")] from rfl,
    length_filterMap_three]
  simp only [indices, List.map_cons, List.map_nil, List.countP_cons, List.countP_nil] at h
  cases hb1 : fetchFails (fetches "^GSPC") <;>
    cases hb2 : fetchFails (fetches "^DJI") <;>
      cases hb3 : fetchFails (fetches "^IXIC") <;>
        simp_all [indexEntry_isSome_eq]

/-- Witness for C1: a concrete run where the S&P 500 fetch raises and
the other two symbols return one-point histories. -/
theorem index_aggregation_omits_failures_witness :
    ((indices.map fun p =>
        (fun s => if s = "^GSPC" then (.error () : Except Unit (Metadata × List ℚ))
                  else .ok ({}, [100])) p.1).countP fetchFails) = 1 ∧
    ∃ l, get_market_indices
        (fun s => if s = "^GSPC" then (.error () : Except Unit (Metadata × List ℚ))
                  else .ok ({}, [100])) = .ok l ∧ l.length = 2 :=
  ⟨by decide, index_aggregation_omits_failures _ (by decide)⟩

/-! ### C2 -/

/-- C2: a symbol whose fetched price history is empty makes both the
quote handler and the chart handler return an `{error}` body with HTTP
status 404, neither data nor a crash. -/
theorem empty_history_yields_404 (symbol : String) (info : Metadata)
    (periodArg intervalArg : Option String)
    (fetch : String → String → Except Unit (List Row))
    (hfetch : ∀ p i, fetch p i = .ok []) :
    get_stock_data symbol (.ok (info, [])) =
      .fail 404 ("No data found for symbol " ++ symbol) ∧
    get_stock_chart symbol periodArg intervalArg fetch =
      .fail 404 ("No chart data found for symbol " ++ symbol) := by
  refine ⟨rfl, ?_⟩
  simp [get_stock_chart, hfetch]

/-- Witness for C2: the quote and chart handlers at a concrete symbol
whose provider returns empty histories. -/
theorem empty_history_yields_404_witness :
    get_stock_data "XYZ" (.ok ({}, [])) =
      .fail 404 ("No data found for symbol " ++ "XYZ") ∧
    get_stock_chart "XYZ" none none (fun _ _ => .ok []) =
      .fail 404 ("No chart data found for symbol " ++ "XYZ") :=
  empty_history_yields_404 "XYZ" {} none none _ (fun _ _ => rfl)

/-! ### C3 -/

/-- C3: when the metadata map lacks `previousClose` and the history is
non-empty, `previous_close` falls back to the current price, so the
emitted `change` field is exactly 0. -/
theorem missing_previous_close_zero_change (symbol : String) (info : Metadata)
    (hist : List ℚ) (c : ℚ) (hlast : hist.getLast? = some c)
    (hpc : info.previousClose = none) :
    ∃ s, get_stock_data symbol (.ok (info, hist)) = .ok s ∧ s.change = 0 := by
  simp only [get_stock_data, hlast]
  exact ⟨_, rfl, by simp only [hpc, Option.getD_none, sub_self, round2_zero]⟩

/-- Witness for C3: concrete metadata without `previousClose` and the
one-point history `[3]`. -/
theorem missing_previous_close_zero_change_witness :
    ∃ s, get_stock_data "XYZ" (.ok ({}, [(3 : ℚ)])) = .ok s ∧ s.change = 0 :=
  missing_previous_close_zero_change "XYZ" {} [(3 : ℚ)] 3 rfl rfl

/-! ### C4 -/

/-- C4: the guarded percent-change computation shared by the quote
handler and the per-symbol index computation never divides by zero: it
yields 0 when `previous_close` is zero and `change / previous_close *
100` otherwise, and both handlers emit exactly its rounded value. -/
theorem change_percent_division_guard (change pc : ℚ) (symbol nm : String)
    (info : Metadata) (hist : List ℚ) (c : ℚ)
    (hlast : hist.getLast? = some c) (hpc : info.previousClose = some pc) :
    (pc = 0 → computeChangePercent change pc = 0) ∧
    (pc ≠ 0 → computeChangePercent change pc = change / pc * 100) ∧
    (∃ s, get_stock_data symbol (.ok (info, hist)) = .ok s ∧
      s.change_percent = round2 (computeChangePercent (c - pc) pc)) ∧
    (∃ e, indexEntry symbol nm (.ok (info, hist)) = some e ∧
      e.change_percent = round2 (computeChangePercent (c - pc) pc)) := by
  refine ⟨fun h => by simp [computeChangePercent, h],
    fun h => by simp [computeChangePercent, h], ?_, ?_⟩
  · simp only [get_stock_data, hlast]
    exact ⟨_, rfl, by simp only [hpc, Option.getD_some]⟩
  · simp only [indexEntry, hlast]
    exact ⟨_, rfl, by simp only [hpc, Option.getD_some]⟩

/-- Witness for C4: a zero stored previous close with the one-point
history `[5]`. -/
theorem change_percent_division_guard_witness :
    computeChangePercent 5 0 = 0 :=
  (change_percent_division_guard 5 0 "XYZ" "X"
    { previousClose := some 0 } [(5 : ℚ)] 5 rfl rfl).1 rfl

/-! ### C5 -/

/-- Counterexample to C5 as stated: with current price 1.006 and stored
previous close 0.002, the emitted rounded fields are 1.01, 0.00 and a
change of 1.00, so the identity `change = current_price -
previous_close` fails on the emitted fields (1.00 ≠ 1.01 - 0.00); and
the monetary field `high_52w` is passed through unrounded
(3.14159 is not a two-decimal value). -/
theorem rounded_fields_break_invariant :
    ∃ s, get_stock_data "XYZ"
        (.ok ({ previousClose := some (1/500),
                fiftyTwoWeekHigh := some (314159/100000) }, [(503 : ℚ)/500])) = .ok s ∧
      s.change ≠ s.current_price - s.previous_close ∧ ¬ isTwoDecimal s.high_52w := by
  refine ⟨_, rfl, ?_, ?_⟩
  · simp only [Option.getD_some, round2, List.getLast_singleton']
    rw [show (503 : ℚ)/500 - 1/500 = 502/500 by norm_num,
      roundHalfEven_eval ((502 : ℚ)/500 * 100) 100 (by norm_num) (by norm_num),
      roundHalfEven_eval ((503 : ℚ)/500 * 100) 100 (by norm_num) (by norm_num),
      roundHalfEven_eval ((1 : ℚ)/500 * 100) 0 (by norm_num) (by norm_num)]
    norm_num
  · simp only [Option.getD_some, isTwoDecimal]
    rintro ⟨n, hn⟩
    have h : (314159 : ℚ) = (n : ℚ) * 1000 := by
      field_simp at hn
      linarith
    have h' : (314159 : ℤ) = n * 1000 := by exact_mod_cast h
    omega

/-- C5 (amended): in every successful `StockSnapshot` response the
invariant `change = current_price - previous_close` holds on the
unrounded values — the emitted `change` is exactly
`round2 (raw current price - raw previous close)` — and the four
fields `current_price`, `previous_close`, `change`, `change_percent`
are each produced by a single `round2` at the response boundary, hence
are two-decimal values.  (After rounding, the emitted identity can be
off by one cent, and pass-through fields such as `high_52w` are not
rounded: see the counterexample.) -/
theorem rounding_once_at_boundary (symbol : String) (info : Metadata)
    (hist : List ℚ) (c : ℚ) (hlast : hist.getLast? = some c) :
    ∃ s, get_stock_data symbol (.ok (info, hist)) = .ok s ∧
      s.current_price = round2 c ∧
      s.previous_close = round2 (info.previousClose.getD c) ∧
      s.change = round2 (c - info.previousClose.getD c) ∧
      s.change_percent =
        round2 (computeChangePercent (c - info.previousClose.getD c)
          (info.previousClose.getD c)) ∧
      isTwoDecimal s.current_price ∧ isTwoDecimal s.previous_close ∧
      isTwoDecimal s.change ∧ isTwoDecimal s.change_percent := by
  simp only [get_stock_data, hlast]
  exact ⟨_, rfl, rfl, rfl, rfl, rfl, isTwoDecimal_round2 _, isTwoDecimal_round2 _,
    isTwoDecimal_round2 _, isTwoDecimal_round2 _⟩

/-- Witness for C5 (amended) at a concrete quote: price 3, stored
previous close 2. -/
theorem rounding_once_at_boundary_witness :
    ∃ s, get_stock_data "XYZ"
        (.ok ({ previousClose := some 2 }, [(3 : ℚ)])) = .ok s ∧
      s.current_price = round2 3 ∧
      s.previous_close = round2 ((Metadata.previousClose
        { previousClose := some 2 }).getD 3) ∧
      s.change = round2 (3 - (Metadata.previousClose
        { previousClose := some 2 }).getD 3) ∧
      s.change_percent =
        round2 (computeChangePercent (3 - (Metadata.previousClose
          { previousClose := some 2 }).getD 3)
          ((Metadata.previousClose { previousClose := some 2 }).getD 3)) ∧
      isTwoDecimal s.current_price ∧ isTwoDecimal s.previous_close ∧
      isTwoDecimal s.change ∧ isTwoDecimal s.change_percent :=
  rounding_once_at_boundary "XYZ" { previousClose := some 2 } [(3 : ℚ)] 3 rfl

/-! ### C6 -/

/-- C6: at current price 150.455 and previous close 148.00 the quote
handler emits `change = 2.46` and `change_percent = 1.66`. -/
theorem concrete_rounding_example :
    ∃ s, get_stock_data "AAPL"
        (.ok ({ previousClose := some 148 }, [(30091 : ℚ)/200])) = .ok s ∧
      s.change = 246/100 ∧ s.change_percent = 166/100 := by
  refine ⟨_, rfl, ?_, ?_⟩
  · simp only [Option.getD_some, round2, List.getLast_singleton']
    rw [show (30091 : ℚ)/200 - 148 = 491/200 by norm_num,
      roundHalfEven_eval ((491 : ℚ)/200 * 100) 245 (by norm_num) (by norm_num)]
    norm_num
  · simp only [Option.getD_some, round2, computeChangePercent, List.getLast_singleton']
    rw [show (30091 : ℚ)/200 - 148 = 491/200 by norm_num,
      if_pos (by norm_num : (148 : ℚ) ≠ 0),
      show (491 : ℚ)/200 / 148 * 100 = 491/296 by norm_num,
      roundHalfEven_eval ((491 : ℚ)/296 * 100) 165 (by norm_num) (by norm_num)]
    norm_num

/-! ### C7 -/

/-- C7: a period string outside `valid_periods` (such as "3w") is
silently replaced by "1y" before the fetch is issued — the request
behaves exactly like an explicit "1y" request, so it is never rejected
for an invalid period — while the interval string is passed through to
the fetch unvalidated and echoed back. -/
theorem invalid_period_replaced (symbol p : String) (intervalArg : Option String)
    (fetch : String → String → Except Unit (List Row)) (hp : p ∉ valid_periods) :
    get_stock_chart symbol (some p) intervalArg fetch =
      get_stock_chart symbol (some "1y") intervalArg fetch ∧
    ∀ rows, fetch "1y" (intervalArg.getD "1d") = .ok rows → rows ≠ [] →
      ∃ resp, get_stock_chart symbol (some p) intervalArg fetch = .ok resp ∧
        resp.period = "1y" ∧ resp.interval = intervalArg.getD "1d" := by
  have hep : effectivePeriod (some p) = "1y" := by
    simp [effectivePeriod, hp]
  have hep1 : effectivePeriod (some "1y") = "1y" := by
    simp [effectivePeriod, valid_periods]
  refine ⟨by simp only [get_stock_chart, hep, hep1], ?_⟩
  intro rows hrows hne
  have hie : rows.isEmpty = false := by simp [hne]
  simp only [get_stock_chart, hep, hrows, hie]
  exact ⟨_, rfl, rfl, rfl⟩

/-- Witness for C7: the unrecognized period "3w" with an explicit
interval "1h" and a one-row fetch result. -/
theorem invalid_period_replaced_witness :
    ∃ resp, get_stock_chart "AAPL" (some "3w") (some "1h")
        (fun _ _ => .ok [{ date := "2024-01-02", ts := 0, openPrice := 1,
                           highPrice := 1, lowPrice := 1, closePrice := 1,
                           vol := 0 }]) = .ok resp ∧
      resp.period = "1y" ∧ resp.interval = (some "1h").getD "1d" :=
  (invalid_period_replaced "AAPL" "3w" (some "1h") _ (by decide)).2 _ rfl (by simp)

/-! ### C8 -/

/-- C8: for a non-empty fetched OHLCV series, the chart response is a
200 whose `data` list is exactly the row-wise image of the input rows
(`rowToBar` applied in input order, so the i-th bar comes from the
i-th row and the length equals the row count) and whose `count` field
equals that length. -/
theorem chart_preserves_rows (symbol : String) (periodArg intervalArg : Option String)
    (fetch : String → String → Except Unit (List Row)) (rows : List Row)
    (hne : rows ≠ [])
    (hfetch : fetch (effectivePeriod periodArg) (intervalArg.getD "1d") = .ok rows) :
    ∃ resp, get_stock_chart symbol periodArg intervalArg fetch = .ok resp ∧
      resp.data = rows.map rowToBar ∧ resp.data.length = rows.length ∧
      resp.count = rows.length := by
  have hie : rows.isEmpty = false := by simp [hne]
  simp only [get_stock_chart, hfetch, hie]
  exact ⟨_, rfl, rfl, by simp, by simp⟩

/-- Witness for C8: a two-row fetch result on the default period and
interval. -/
theorem chart_preserves_rows_witness :
    ∃ resp, get_stock_chart "AAPL" none none
        (fun _ _ => .ok [{ date := "2024-01-02", ts := 1704153600, openPrice := 1,
                           highPrice := 2, lowPrice := 1, closePrice := 2, vol := 30 },
                         { date := "2024-01-03", ts := 1704240000, openPrice := 2,
                           highPrice := 3, lowPrice := 2, closePrice := 3, vol := 40 }])
        = .ok resp ∧
      resp.data = List.map rowToBar
        [{ date := "2024-01-02", ts := 1704153600, openPrice := 1,
           highPrice := 2, lowPrice := 1, closePrice := 2, vol := 30 },
         { date := "2024-01-03", ts := 1704240000, openPrice := 2,
           highPrice := 3, lowPrice := 2, closePrice := 3, vol := 40 }] ∧
      resp.data.length = 2 ∧ resp.count = 2 :=
  chart_preserves_rows "AAPL" none none _ _ (by simp) rfl

/-! ### C9 -/

/-- C9: a query longer than 5 characters yields zero suggestions with
the same response for every provider outcome (no fetch is consulted);
a query of at most 5 characters does consult the provider — its
outcome can change the response — and a provider failure still yields
zero suggestions with status 200 rather than an error. -/
theorem search_length_guard (q : String) :
    (5 < q.length → ∀ fetch, search_stocks q fetch = .ok { suggestions := [] }) ∧
    (q.length ≤ 5 →
      search_stocks q (.error ()) = .ok { suggestions := [] } ∧
      search_stocks q (.ok { longName := some "X" }) ≠ search_stocks q (.error ())) := by
  refine ⟨fun h fetch => by simp [search_stocks, h], fun h => ?_⟩
  have hif : ¬ (q.length > 5) := by omega
  refine ⟨by simp [search_stocks, hif], ?_⟩
  simp [search_stocks, hif, show ("X" : String).isEmpty = false from by decide]

/-- Witness for C9: the 10-character query "TOOLONGSTR" never fetches,
and the 4-character query "AAPL" swallows a provider failure. -/
theorem search_length_guard_witness :
    search_stocks "TOOLONGSTR" (.error ()) = .ok { suggestions := [] } ∧
    search_stocks "AAPL" (.error ()) = .ok { suggestions := [] } :=
  ⟨(search_length_guard "TOOLONGSTR").1 (by decide) _,
   ((search_length_guard "AAPL").2 (by decide)).1⟩

/-! ### C10 -/

/-- C10: when the chart request omits the period and interval query
parameters the effective values are "1y" and "1d": the parameterless
request behaves exactly like an explicit ("1y", "1d") request, the
fetch is issued with those values, and a successful response echoes
them in its `period` and `interval` fields. -/
theorem chart_defaults (symbol : String)
    (fetch : String → String → Except Unit (List Row)) :
    get_stock_chart symbol none none fetch =
      get_stock_chart symbol (some "1y") (some "1d") fetch ∧
    ∀ rows, fetch "1y" "1d" = .ok rows → rows ≠ [] →
      ∃ resp, get_stock_chart symbol none none fetch = .ok resp ∧
        resp.period = "1y" ∧ resp.interval = "1d" := by
  have hep : effectivePeriod none = "1y" := by
    simp [effectivePeriod, valid_periods]
  have hep1 : effectivePeriod (some "1y") = "1y" := by
    simp [effectivePeriod, valid_periods]
  refine ⟨by simp only [get_stock_chart, hep, hep1, Option.getD_none, Option.getD_some], ?_⟩
  intro rows hrows hne
  have hie : rows.isEmpty = false := by simp [hne]
  simp only [get_stock_chart, hep, Option.getD_none, hrows, hie]
  exact ⟨_, rfl, rfl, rfl⟩

/-- Witness for C10: a one-row fetch result with both query parameters
omitted. -/
theorem chart_defaults_witness :
    ∃ resp, get_stock_chart "MSFT" none none
        (fun _ _ => .ok [{ date := "2024-01-02", ts := 0, openPrice := 1,
                           highPrice := 1, lowPrice := 1, closePrice := 1,
                           vol := 0 }]) = .ok resp ∧
      resp.period = "1y" ∧ resp.interval = "1d" :=
  (chart_defaults "MSFT" _).2 _ rfl (by simp)

end StockApi
